import Mathlib

/-!
Verification of `object_detection/detectron2_training.ipynb`.

The notebook is straight-line glue code: it registers two COCO datasets,
sets configuration fields on a Detectron2 config object, trains a model,
loads the trained weights into a predictor, runs the predictor on each
validation image, reformats each prediction with
`format_detectron2_predictions`, and pickles the collected results.

The only algorithmic content is `format_detectron2_predictions`, which
groups detections by predicted class into per-class numpy arrays.  We embed
it shallowly: a detection is a record of its bounding-box coordinates, its
predicted class index and its confidence score; numpy arrays become a
record of a row list, a column count and a dtype tag.  The function never
performs arithmetic on coordinates or scores, it only moves them around,
so we model the float values as exact rationals.  Python list indexing
`res[pred_class]` raises `IndexError` for an out-of-range class, which we
model by returning `none`.

The sequential pipeline of the notebook is embedded as a list of events in
source order, on which the temporal claims are stated.
-/

namespace Detectron

/-- One detection of the Detectron2 `Instances` object: `box` models the
corresponding row of `fields['pred_boxes'].tensor.numpy()` (a list of the
box coordinates), `predClass` models `fields['pred_classes'][i].item()`
and `score` models `fields['scores'][i].item()`. -/
structure Detection where
  box : List ℚ
  predClass : ℕ
  score : ℚ
deriving DecidableEq, Repr

/-- The row appended for a detection: `box_cord = list(boxes[i])` followed
by `box_cord.append(probs)`. -/
def detRow (d : Detection) : List ℚ :=
  d.box ++ [d.score]

/-- Numpy dtype tags relevant to the notebook. -/
inductive DType where
  | float32
  | float64
deriving DecidableEq, Repr

/-- A (two-dimensional) numpy array: its rows, its column count (the
second component of its shape) and its dtype. -/
structure NDArray where
  rows : List (List ℚ)
  cols : ℕ
  dtype : DType
deriving DecidableEq, Repr

instance : Inhabited NDArray :=
  ⟨⟨[], 0, DType.float32⟩⟩

/-- `np.array(i, dtype=np.float32)` for a non-empty list `i` of rows: the
column count is inferred from the data (the length of the first row). -/
def npArrayF32 (rows : List (List ℚ)) : NDArray :=
  ⟨rows, (rows.headD []).length, DType.float32⟩

/-- `np.array(i, dtype=np.float32).reshape((0, n))`: an empty array whose
shape is forced to `(0, n)`. -/
def emptyReshape (n : ℕ) : NDArray :=
  ⟨[], n, DType.float32⟩

/-- The loop `for i in range(0, len(fields['pred_classes']))` of
`format_detectron2_predictions`: each detection appends its row to the
bucket `res[pred_class]`.  Python raises `IndexError` when `pred_class`
is not a valid index of `res`, modelled by `none`. -/
def fillBuckets : List Detection → List (List (List ℚ)) → Option (List (List (List ℚ)))
  | [], res => some res
  | d :: rest, res =>
    if h : d.predClass < res.length then
      fillBuckets rest (res.set d.predClass (res.get ⟨d.predClass, h⟩ ++ [detRow d]))
    else
      none

/-- The second loop of `format_detectron2_predictions`: an empty bucket
becomes `np.array(i, dtype=np.float32).reshape((0, num_classes))`, a
non-empty one becomes `np.array(i, dtype=np.float32)`. -/
def bucketArray (numClasses : ℕ) (b : List (List ℚ)) : NDArray :=
  if b.length = 0 then emptyReshape numClasses else npArrayF32 b

/-- `format_detectron2_predictions(ins, num_classes)`: distribute the
detections over `num_classes` buckets (initially `[[] for i in
range(num_classes)]`), then convert each bucket to a numpy array. -/
def format_detectron2_predictions (ins : List Detection) (numClasses : ℕ) :
    Option (List NDArray) :=
  (fillBuckets ins (List.replicate numClasses [])).map
    (List.map (bucketArray numClasses))

/-! ### Helper lemmas about `fillBuckets` -/

/-- `fillBuckets` preserves the number of buckets. -/
lemma fillBuckets_length (dets : List Detection) :
    ∀ res out : List (List (List ℚ)), fillBuckets dets res = some out →
      out.length = res.length := by
  induction dets with
  | nil =>
    intro res out h
    simp only [fillBuckets] at h
    cases h
    rfl
  | cons d rest ih =>
    intro res out h
    simp only [fillBuckets] at h
    split at h
    · have := ih _ _ h
      simpa [List.length_set] using this
    · cases h

/-- `fillBuckets` succeeds as soon as every predicted class is a valid
bucket index. -/
lemma fillBuckets_isSome (dets : List Detection) :
    ∀ res : List (List (List ℚ)), (∀ d ∈ dets, d.predClass < res.length) →
      ∃ out, fillBuckets dets res = some out := by
  induction dets with
  | nil =>
    intro res _
    exact ⟨res, rfl⟩
  | cons d rest ih =>
    intro res h
    have hd : d.predClass < res.length := h d (List.mem_cons_self d rest)
    have hrest : ∀ x ∈ rest, x.predClass <
        (res.set d.predClass (res.get ⟨d.predClass, hd⟩ ++ [detRow d])).length := by
      intro x hx
      rw [List.length_set]
      exact h x (List.mem_cons_of_mem d hx)
    obtain ⟨out, hout⟩ := ih _ hrest
    refine ⟨out, ?_⟩
    simp only [fillBuckets]
    rw [dif_pos hd]
    exact hout

/-- Bucket `c` of the result is the original bucket `c` followed by the
rows of the detections of class `c`, in input order. -/
lemma fillBuckets_getD (dets : List Detection) :
    ∀ res out : List (List (List ℚ)), fillBuckets dets res = some out →
      ∀ c : ℕ, out.getD c [] =
        res.getD c [] ++ (dets.filter (fun d => d.predClass == c)).map detRow := by
  induction dets with
  | nil =>
    intro res out h c
    simp only [fillBuckets] at h
    cases h
    simp
  | cons d rest ih =>
    intro res out h c
    simp only [fillBuckets] at h
    split at h
    case isTrue hd =>
      have hrec := ih _ _ h c
      rw [hrec]
      by_cases hc : d.predClass = c
      · subst hc
        have hset : (res.set d.predClass
            (res.get ⟨d.predClass, hd⟩ ++ [detRow d])).getD d.predClass [] =
            res.getD d.predClass [] ++ [detRow d] := by
          rw [List.getD_eq_getElem?_getD, List.getD_eq_getElem?_getD]
          rw [List.getElem?_set_self' ]
          rw [List.getElem?_eq_getElem hd]
          simp
        rw [hset]
        simp [List.filter_cons, List.append_assoc]
      · have hset : (res.set d.predClass
            (res.get ⟨d.predClass, hd⟩ ++ [detRow d])).getD c [] = res.getD c [] := by
          rw [List.getD_eq_getElem?_getD, List.getD_eq_getElem?_getD]
          rw [List.getElem?_set_ne hc]
        rw [hset]
        have hbeq : (d.predClass == c) = false := by
          simp [hc]
        simp [List.filter_cons, hbeq]
    case isFalse => cases h

/-- Summing a function over a list after updating one entry. -/
lemma sum_map_set (f : List (List ℚ) → ℕ) :
    ∀ (l : List (List (List ℚ))) (i : ℕ) (h : i < l.length) (a : List (List ℚ)),
      ((l.set i a).map f).sum + f (l.get ⟨i, h⟩) = (l.map f).sum + f a := by
  intro l
  induction l with
  | nil =>
    intro i h
    simp at h
  | cons x xs ih =>
    intro i h a
    match i with
    | 0 =>
      simp [List.set]
      omega
    | Nat.succ j =>
      have hj : j < xs.length := by
        simpa using h
      have := ih j hj a
      simp only [List.set, List.map_cons, List.sum_cons, List.get]
      omega

/-- Each processed detection adds exactly one row to the buckets. -/
lemma fillBuckets_sum (dets : List Detection) :
    ∀ res out : List (List (List ℚ)), fillBuckets dets res = some out →
      (out.map List.length).sum = (res.map List.length).sum + dets.length := by
  induction dets with
  | nil =>
    intro res out h
    simp only [fillBuckets] at h
    cases h
    simp
  | cons d rest ih =>
    intro res out h
    simp only [fillBuckets] at h
    split at h
    case isTrue hd =>
      have hrec := ih _ _ h
      have hset := sum_map_set List.length res d.predClass hd
        (res.get ⟨d.predClass, hd⟩ ++ [detRow d])
      simp only [List.length_append, List.length_cons, List.length_nil] at hset
      simp only [List.length_cons]
      omega
    case isFalse => cases h

/-- The rows of the array built from a bucket are the bucket itself (the
empty reshape keeps the empty row list). -/
lemma bucketArray_rows (numClasses : ℕ) (b : List (List ℚ)) :
    (bucketArray numClasses b).rows = b := by
  unfold bucketArray
  split
  case isTrue h =>
    simp only [emptyReshape]
    exact (List.length_eq_zero.mp h).symm
  case isFalse => rfl

/-- The dtype of every built array is float32. -/
lemma bucketArray_dtype (numClasses : ℕ) (b : List (List ℚ)) :
    (bucketArray numClasses b).dtype = DType.float32 := by
  unfold bucketArray
  split
  · rfl
  · rfl

/-- Master characterisation of `format_detectron2_predictions` under the
in-range precondition: it succeeds, returns one array per class, and the
array of class `c` is built from the rows of the class-`c` detections in
input order. -/
lemma format_spec (dets : List Detection) (numClasses : ℕ)
    (h : ∀ d ∈ dets, d.predClass < numClasses) :
    ∃ out, format_detectron2_predictions dets numClasses = some out ∧
      out.length = numClasses ∧
      ∀ c : ℕ, c < numClasses →
        out.getD c default =
          bucketArray numClasses
            ((dets.filter (fun d => d.predClass == c)).map detRow) := by
  have hlen : (List.replicate numClasses ([] : List (List ℚ))).length = numClasses :=
    List.length_replicate numClasses []
  have hsome : ∃ buckets,
      fillBuckets dets (List.replicate numClasses []) = some buckets := by
    apply fillBuckets_isSome
    intro d hd
    rw [hlen]
    exact h d hd
  obtain ⟨buckets, hbuckets⟩ := hsome
  have hblen : buckets.length = numClasses := by
    rw [fillBuckets_length dets _ _ hbuckets, hlen]
  refine ⟨buckets.map (bucketArray numClasses), ?_, ?_, ?_⟩
  · simp [format_detectron2_predictions, hbuckets]
  · simp [hblen]
  · intro c hc
    have hgetD := fillBuckets_getD dets _ _ hbuckets c
    have hrep : (List.replicate numClasses ([] : List (List ℚ))).getD c [] = [] := by
      rw [List.getD_eq_getElem?_getD]
      rw [List.getElem?_replicate]
      split <;> rfl
    rw [hrep, List.nil_append] at hgetD
    have hclt : c < buckets.length := by
      rw [hblen]
      exact hc
    rw [List.getD_eq_getElem?_getD, List.getElem?_map,
      List.getElem?_eq_getElem hclt]
    show bucketArray numClasses (buckets.get ⟨c, hclt⟩) = _
    have hgc : buckets.get ⟨c, hclt⟩ = buckets.getD c [] := by
      rw [List.getD_eq_getElem?_getD, List.getElem?_eq_getElem hclt]
      rfl
    rw [hgc, hgetD]

/-! ### The rest of the notebook: paths, configuration and pipeline trace

The notebook outside `format_detectron2_predictions` is straight-line glue
code.  We embed the dataset paths and the configuration assignments as
data, and the side-effecting statements as a list of events in source
order.  The final cell iterates over a variable `dataset` that is not
defined in the notebook; following the spec ("predict per image"), the
trace is parameterised by the list of validation images. -/

def IMAGE_PATH : String := "../data/coco/"

/-- `os.path.join(a, b)` for a non-absolute second component: append with
a separator unless `a` already ends in one. -/
def osPathJoin (a b : String) : String :=
  if a.endsWith "/" then a ++ b else a ++ "/" ++ b

def TRAIN_PATH : String := osPathJoin IMAGE_PATH "train2017"

def VAL_PATH : String := osPathJoin IMAGE_PATH "val2017"

/-- Model of `model_zoo.get_checkpoint_url`: an opaque injective tagging
of the config-file name, since the URL scheme lives in the external
framework. -/
def checkpointURL (cfgFile : String) : String :=
  "model_zoo_checkpoint:" ++ cfgFile

/-- The Detectron2 config fields that the notebook reads or writes. -/
structure Config where
  datasetsTrain : List String
  datasetsTest : List String
  dataloaderNumWorkers : ℕ
  modelWeights : String
  solverImsPerBatch : ℕ
  solverBaseLR : ℚ
  solverMaxIter : ℕ
  solverSteps : List ℕ
  roiHeadsBatchSizePerImage : ℕ
  roiHeadsNumClasses : ℕ
  roiHeadsScoreThreshTest : ℚ
  outputDir : String
deriving DecidableEq, Repr, Inhabited

/-- The ten assignments of the training-configuration cell, applied to the
config produced by `get_cfg()` plus `merge_from_file` (modelled as an
arbitrary base config). -/
def trainConfig (base : Config) : Config :=
  { base with
    datasetsTrain := ["my_dataset_train"]
    datasetsTest := ["my_dataset_val"]
    dataloaderNumWorkers := 2
    modelWeights := checkpointURL "COCO-Detection/faster_rcnn_X_101_32x8d_FPN_3x.yaml"
    solverImsPerBatch := 2
    solverBaseLR := 25/100000
    solverMaxIter := 30000
    solverSteps := []
    roiHeadsBatchSizePerImage := 128
    roiHeadsNumClasses := 5 }

/-- The two further assignments of the inference cell. -/
def inferenceConfig (base : Config) : Config :=
  { trainConfig base with
    modelWeights := osPathJoin (trainConfig base).outputDir "model_final.pth"
    roiHeadsScoreThreshTest := 7/10 }

/-- Observable events of the notebook, in the order the cells perform
them.  `loadConfig` stands for `get_cfg()` with `merge_from_file`;
`loadTrainedWeights` stands for constructing `DefaultPredictor(cfg)`,
which loads the weights named by `cfg.MODEL.WEIGHTS`.  The construction
of the evaluator and the test loader touches neither the config nor the
results and emits no event. -/
inductive Event where
  | registerDataset (name annFile imgDir : String)
  | loadConfig
  | setField (field : String)
  | train
  | loadTrainedWeights
  | predict (img : String)
  | reshapePred (img : String)
  | persistResults
deriving DecidableEq, Repr

/-- The two `register_coco_instances` calls. -/
def cellRegister : List Event :=
  [Event.registerDataset "my_dataset_train" "instances_train2017_5labels.json" TRAIN_PATH,
   Event.registerDataset "my_dataset_val" "instances_val2017_5labels.json" VAL_PATH]

/-- The config fields assigned after `merge_from_file`, in source order.
The `cfg.` prefix is dropped. -/
def trainFieldAssignments : List String :=
  ["DATASETS.TRAIN", "DATASETS.TEST", "DATALOADER.NUM_WORKERS", "MODEL.WEIGHTS",
   "SOLVER.IMS_PER_BATCH", "SOLVER.BASE_LR", "SOLVER.MAX_ITER", "SOLVER.STEPS",
   "MODEL.ROI_HEADS.BATCH_SIZE_PER_IMAGE", "MODEL.ROI_HEADS.NUM_CLASSES"]

/-- The configuration cell: load and merge the config, then the ten
assignments. -/
def cellConfig : List Event :=
  Event.loadConfig :: trainFieldAssignments.map Event.setField

/-- The training cell: `DefaultTrainer(cfg)`, `resume_or_load`,
`trainer.train()`. -/
def cellTrain : List Event :=
  [Event.train]

/-- The config fields assigned in the inference cell, in source order. -/
def inferenceFieldAssignments : List String :=
  ["MODEL.WEIGHTS", "MODEL.ROI_HEADS.SCORE_THRESH_TEST"]

/-- The inference cell: point `MODEL.WEIGHTS` at `model_final.pth`, set
the test threshold, then build the predictor (which loads the trained
weights). -/
def cellInference : List Event :=
  inferenceFieldAssignments.map Event.setField ++ [Event.loadTrainedWeights]

/-- The final cell: for each image predict then reshape, and pickle the
collected results after the loop. -/
def cellLoop (dataset : List String) : List Event :=
  (dataset.flatMap fun img => [Event.predict img, Event.reshapePred img]) ++
    [Event.persistResults]

/-- The whole notebook, cells in file order. -/
def notebookEvents (dataset : List String) : List Event :=
  cellRegister ++ cellConfig ++ cellTrain ++ cellInference ++ cellLoop dataset

/-- The field names of the `setField` events of a trace, in order. -/
def setFieldsOf (t : List Event) : List String :=
  t.filterMap fun e =>
    match e with
    | Event.setField f => some f
    | _ => none

/-- Recogniser for dataset-registration events. -/
def isRegisterEvent : Event → Bool
  | Event.registerDataset _ _ _ => true
  | _ => false

/-! ### Concrete inputs used by the witnesses -/

/-- A small concrete instance collection: two detections of classes 1 and
0, with box coordinates of length 4. -/
def dets0 : List Detection :=
  [⟨[1, 2, 3, 4], 1, 9⟩, ⟨[5, 6, 7, 8], 0, 2⟩]

/-- The value of `format_detectron2_predictions dets0 3`. -/
def arr0 : List NDArray :=
  [⟨[[5, 6, 7, 8, 2]], 5, DType.float32⟩,
   ⟨[[1, 2, 3, 4, 9]], 5, DType.float32⟩,
   ⟨[], 3, DType.float32⟩]

/-! ### Claims about `format_detectron2_predictions` -/

/-- C1: the claim that every returned array has exactly 5 columns fails
for the zero-padding branch, which reshapes the empty array to
`(0, num_classes)` rather than `(0, 5)`: with `num_classes = 3` and no
detections, every returned array has 3 columns, not 5. -/
theorem empty_class_padding_has_numClasses_columns :
    (format_detectron2_predictions [] 3).map (List.map NDArray.cols) = some [3, 3, 3] ∧
      (3 : ℕ) ≠ 5 := by
  constructor
  · rfl
  · decide

/-- C2: under the in-range precondition, each detection contributes
exactly one row, in the array indexed by its predicted class, and that
row is its 4 box coordinates followed by its score: the rows of the
class-`c` array are a permutation of (in fact, below, equal to) the
rows `box ++ [score]` of the class-`c` detections. -/
theorem format_groups_rows_by_predicted_class
    (dets : List Detection) (numClasses : ℕ)
    (h : ∀ d ∈ dets, d.predClass < numClasses) :
    ∃ out, format_detectron2_predictions dets numClasses = some out ∧
      ∀ c : ℕ, c < numClasses →
        (out.getD c default).rows.Perm
          ((dets.filter (fun d => d.predClass == c)).map
            (fun d => d.box ++ [d.score])) := by
  obtain ⟨out, hout, _, hc⟩ := format_spec dets numClasses h
  refine ⟨out, hout, ?_⟩
  intro c hclt
  rw [hc c hclt, bucketArray_rows]
  exact List.Perm.refl _

/-- Witness for C2 at a concrete input. -/
theorem format_groups_rows_by_predicted_class_witness :
    ∃ out, format_detectron2_predictions dets0 3 = some out ∧
      ∀ c : ℕ, c < 3 →
        (out.getD c default).rows.Perm
          ((dets0.filter (fun d => d.predClass == c)).map
            (fun d => d.box ++ [d.score])) :=
  format_groups_rows_by_predicted_class dets0 3 (by decide)

/-- C3: under the in-range precondition the function returns exactly
`numClasses` arrays, and the array at index `c` has zero rows exactly
when no input detection has predicted class `c`. -/
theorem format_length_and_empty_class_iff
    (dets : List Detection) (numClasses : ℕ)
    (h : ∀ d ∈ dets, d.predClass < numClasses) :
    ∃ out, format_detectron2_predictions dets numClasses = some out ∧
      out.length = numClasses ∧
      ∀ c : ℕ, c < numClasses →
        ((out.getD c default).rows.length = 0 ↔ ∀ d ∈ dets, d.predClass ≠ c) := by
  obtain ⟨out, hout, hlen, hc⟩ := format_spec dets numClasses h
  refine ⟨out, hout, hlen, ?_⟩
  intro c hclt
  rw [hc c hclt, bucketArray_rows, List.length_map, List.length_eq_zero,
    List.filter_eq_nil_iff]
  constructor
  · intro h1 d hd
    have := h1 d hd
    simpa using this
  · intro h1 d hd
    simpa using h1 d hd

/-- Witness for C3 at a concrete input. -/
theorem format_length_and_empty_class_iff_witness :
    ∃ out, format_detectron2_predictions dets0 3 = some out ∧
      out.length = 3 ∧
      ∀ c : ℕ, c < 3 →
        ((out.getD c default).rows.length = 0 ↔ ∀ d ∈ dets0, d.predClass ≠ c) :=
  format_length_and_empty_class_iff dets0 3 (by decide)

/-- C4: under the in-range precondition, the row counts of the returned
arrays sum to the number of input detections: no detection is dropped or
duplicated. -/
theorem format_total_row_count
    (dets : List Detection) (numClasses : ℕ)
    (h : ∀ d ∈ dets, d.predClass < numClasses) :
    ∃ out, format_detectron2_predictions dets numClasses = some out ∧
      (out.map fun a => a.rows.length).sum = dets.length := by
  have hlen : (List.replicate numClasses ([] : List (List ℚ))).length = numClasses :=
    List.length_replicate numClasses []
  obtain ⟨buckets, hbuckets⟩ := fillBuckets_isSome dets (List.replicate numClasses [])
    (by intro d hd; rw [hlen]; exact h d hd)
  refine ⟨buckets.map (bucketArray numClasses), ?_, ?_⟩
  · simp [format_detectron2_predictions, hbuckets]
  · have hsum := fillBuckets_sum dets _ _ hbuckets
    have hzero : ((List.replicate numClasses ([] : List (List ℚ))).map List.length).sum = 0 := by
      simp
    rw [hzero, Nat.zero_add] at hsum
    rw [List.map_map]
    have hcomp : ((fun a : NDArray => a.rows.length) ∘ bucketArray numClasses) =
        List.length := by
      funext b
      simp [Function.comp, bucketArray_rows]
    rw [hcomp, hsum]

/-- Witness for C4 at a concrete input. -/
theorem format_total_row_count_witness :
    ∃ out, format_detectron2_predictions dets0 3 = some out ∧
      (out.map fun a => a.rows.length).sum = dets0.length :=
  format_total_row_count dets0 3 (by decide)

/-- C8: when every predicted class lies in `[0, num_classes)`,
`format_detectron2_predictions` returns a value (the `IndexError`
branch of `res[pred_class]`, modelled by `none`, is unreachable). -/
theorem format_is_total_in_range
    (dets : List Detection) (numClasses : ℕ)
    (h : ∀ d ∈ dets, d.predClass < numClasses) :
    (format_detectron2_predictions dets numClasses).isSome = true := by
  obtain ⟨buckets, hbuckets⟩ := fillBuckets_isSome dets (List.replicate numClasses [])
    (by
      intro d hd
      rw [List.length_replicate]
      exact h d hd)
  simp [format_detectron2_predictions, hbuckets]

/-- Witness for C8 at a concrete input. -/
theorem format_is_total_in_range_witness :
    (format_detectron2_predictions dets0 3).isSome = true :=
  format_is_total_in_range dets0 3 (by decide)

/-- C9: the grouping is order-stable: the rows of the class-`c` array are
exactly the rows of the class-`c` detections in their input order. -/
theorem format_order_stable
    (dets : List Detection) (numClasses : ℕ)
    (h : ∀ d ∈ dets, d.predClass < numClasses) :
    ∃ out, format_detectron2_predictions dets numClasses = some out ∧
      ∀ c : ℕ, c < numClasses →
        (out.getD c default).rows =
          (dets.filter (fun d => d.predClass == c)).map
            (fun d => d.box ++ [d.score]) := by
  obtain ⟨out, hout, _, hc⟩ := format_spec dets numClasses h
  refine ⟨out, hout, ?_⟩
  intro c hclt
  rw [hc c hclt, bucketArray_rows]
  rfl

/-- Witness for C9 at a concrete input. -/
theorem format_order_stable_witness :
    ∃ out, format_detectron2_predictions dets0 3 = some out ∧
      ∀ c : ℕ, c < 3 →
        (out.getD c default).rows =
          (dets0.filter (fun d => d.predClass == c)).map
            (fun d => d.box ++ [d.score]) :=
  format_order_stable dets0 3 (by decide)

/-- C10: whenever `format_detectron2_predictions` returns, every array in
the returned list has dtype float32 (both branches of the second loop
pass `dtype=np.float32`). -/
theorem format_dtype_float32
    (dets : List Detection) (numClasses : ℕ) (out : List NDArray)
    (h : format_detectron2_predictions dets numClasses = some out) :
    ∀ a ∈ out, a.dtype = DType.float32 := by
  unfold format_detectron2_predictions at h
  cases hfb : fillBuckets dets (List.replicate numClasses []) with
  | none =>
    rw [hfb] at h
    cases h
  | some buckets =>
    rw [hfb] at h
    simp only [Option.map_some'] at h
    cases h
    intro a ha
    obtain ⟨b, _, hb⟩ := List.mem_map.mp ha
    rw [← hb]
    exact bucketArray_dtype numClasses b

/-- Witness for C10 at a concrete input. -/
theorem format_dtype_float32_witness :
    format_detectron2_predictions dets0 3 = some arr0 ∧
      ∀ a ∈ arr0, a.dtype = DType.float32 :=
  ⟨by decide, format_dtype_float32 dets0 3 arr0 (by decide)⟩

/-! ### Claims about the pipeline trace -/

/-- The prediction loop registers no dataset. -/
lemma filter_register_cellLoop (dataset : List String) :
    (cellLoop dataset).filter isRegisterEvent = [] := by
  induction dataset with
  | nil => rfl
  | cons img rest ih =>
    have hsplit : cellLoop (img :: rest) =
        [Event.predict img, Event.reshapePred img] ++ cellLoop rest := by
      simp [cellLoop]
    rw [hsplit, List.filter_append, ih]
    rfl

/-- The prediction loop assigns no config field. -/
lemma setFieldsOf_cellLoop (dataset : List String) :
    setFieldsOf (cellLoop dataset) = [] := by
  induction dataset with
  | nil => rfl
  | cons img rest ih =>
    have hsplit : cellLoop (img :: rest) =
        [Event.predict img, Event.reshapePred img] ++ cellLoop rest := by
      simp [cellLoop]
    rw [hsplit]
    unfold setFieldsOf at ih ⊢
    rw [List.filterMap_append, ih]
    rfl

/-- C5: the pipeline runs in source order: configuration is loaded before
training, the trained weights are loaded after training and before every
prediction, each image's prediction is reshaped after it is predicted,
and the results are persisted last, after every image has been
processed. -/
theorem pipeline_event_order (dataset : List String) :
    ∃ pre mid,
      notebookEvents dataset =
        pre ++ Event.loadTrainedWeights :: (mid ++ [Event.persistResults]) ∧
      (∃ p1 p2, pre = p1 ++ Event.train :: p2 ∧ Event.loadConfig ∈ p1) ∧
      (∀ img, Event.predict img ∉ pre) ∧
      Event.persistResults ∉ pre ∧
      Event.persistResults ∉ mid ∧
      (∀ img ∈ dataset, ∃ m1 m2, mid = m1 ++ Event.predict img :: m2 ∧
        Event.reshapePred img ∈ m2) := by
  refine ⟨cellRegister ++ cellConfig ++ cellTrain ++
      inferenceFieldAssignments.map Event.setField,
    dataset.flatMap fun img => [Event.predict img, Event.reshapePred img],
    ?_, ?_, ?_, ?_, ?_, ?_⟩
  · simp [notebookEvents, cellInference, cellLoop, List.append_assoc]
  · refine ⟨cellRegister ++ cellConfig,
      inferenceFieldAssignments.map Event.setField, ?_, ?_⟩
    · simp [cellTrain, List.append_assoc]
    · simp [cellRegister, cellConfig]
  · intro img
    simp [cellRegister, cellConfig, cellTrain, inferenceFieldAssignments,
      trainFieldAssignments]
  · simp [cellRegister, cellConfig, cellTrain, inferenceFieldAssignments,
      trainFieldAssignments]
  · simp [List.mem_flatMap]
  · intro img himg
    obtain ⟨l1, l2, rfl⟩ := List.append_of_mem himg
    refine ⟨l1.flatMap fun i => [Event.predict i, Event.reshapePred i],
      Event.reshapePred img ::
        (l2.flatMap fun i => [Event.predict i, Event.reshapePred i]), ?_, ?_⟩
    · rw [List.flatMap_append]
      simp
    · exact List.mem_cons_self _ _

/-- Witness for C5 on a one-image dataset. -/
theorem pipeline_event_order_witness :
    ∃ pre mid,
      notebookEvents ["000001"] =
        pre ++ Event.loadTrainedWeights :: (mid ++ [Event.persistResults]) ∧
      (∃ p1 p2, pre = p1 ++ Event.train :: p2 ∧ Event.loadConfig ∈ p1) ∧
      (∀ img, Event.predict img ∉ pre) ∧
      Event.persistResults ∉ pre ∧
      Event.persistResults ∉ mid ∧
      (∀ img ∈ ["000001"], ∃ m1 m2, mid = m1 ++ Event.predict img :: m2 ∧
        Event.reshapePred img ∈ m2) :=
  pipeline_event_order ["000001"]

/-- C6: exactly two datasets are registered, both before training, with
their annotation files and image directories, and the configuration sets
them as the training and test datasets. -/
theorem datasets_registered_before_training (base : Config) (dataset : List String) :
    (trainConfig base).datasetsTrain = ["my_dataset_train"] ∧
    (trainConfig base).datasetsTest = ["my_dataset_val"] ∧
    ((notebookEvents dataset).filter isRegisterEvent).length = 2 ∧
    ∃ a b, notebookEvents dataset = a ++ Event.train :: b ∧
      Event.registerDataset "my_dataset_train" "instances_train2017_5labels.json"
        TRAIN_PATH ∈ a ∧
      Event.registerDataset "my_dataset_val" "instances_val2017_5labels.json"
        VAL_PATH ∈ a ∧
      ∀ e ∈ b, isRegisterEvent e = false := by
  refine ⟨rfl, rfl, ?_, ?_⟩
  · have hfil : (notebookEvents dataset).filter isRegisterEvent = cellRegister := by
      unfold notebookEvents
      rw [List.filter_append, List.filter_append, List.filter_append,
        List.filter_append, filter_register_cellLoop]
      rfl
    rw [hfil]
    rfl
  · refine ⟨cellRegister ++ cellConfig, cellInference ++ cellLoop dataset,
      ?_, ?_, ?_, ?_⟩
    · simp [notebookEvents, cellTrain, List.append_assoc]
    · simp [cellRegister]
    · simp [cellRegister]
    · intro e he
      cases hbe : isRegisterEvent e
      · rfl
      · exfalso
        have hmem : e ∈ (cellInference ++ cellLoop dataset).filter isRegisterEvent :=
          List.mem_filter.mpr ⟨he, hbe⟩
        rw [List.filter_append, filter_register_cellLoop] at hmem
        have hinf : cellInference.filter isRegisterEvent = [] := rfl
        rw [hinf] at hmem
        simp at hmem

/-- Witness for C6 at a concrete base config and a one-image dataset. -/
theorem datasets_registered_before_training_witness :
    (trainConfig default).datasetsTrain = ["my_dataset_train"] ∧
    (trainConfig default).datasetsTest = ["my_dataset_val"] ∧
    ((notebookEvents ["000001"]).filter isRegisterEvent).length = 2 ∧
    ∃ a b, notebookEvents ["000001"] = a ++ Event.train :: b ∧
      Event.registerDataset "my_dataset_train" "instances_train2017_5labels.json"
        TRAIN_PATH ∈ a ∧
      Event.registerDataset "my_dataset_val" "instances_val2017_5labels.json"
        VAL_PATH ∈ a ∧
      ∀ e ∈ b, isRegisterEvent e = false :=
  datasets_registered_before_training default ["000001"]

/-- C7: after loading and merging the config, exactly the ten listed
fields are assigned before training, and exactly `MODEL.WEIGHTS` and
`MODEL.ROI_HEADS.SCORE_THRESH_TEST` are assigned between training and
the construction of the predictor; no field is assigned elsewhere. -/
theorem config_assignment_fields (dataset : List String) :
    ∃ p1 p2 mid rest,
      notebookEvents dataset =
        p1 ++ Event.loadConfig ::
          (p2 ++ Event.train :: (mid ++ Event.loadTrainedWeights :: rest)) ∧
      setFieldsOf p1 = [] ∧
      setFieldsOf p2 = trainFieldAssignments ∧
      trainFieldAssignments =
        ["DATASETS.TRAIN", "DATASETS.TEST", "DATALOADER.NUM_WORKERS", "MODEL.WEIGHTS",
         "SOLVER.IMS_PER_BATCH", "SOLVER.BASE_LR", "SOLVER.MAX_ITER", "SOLVER.STEPS",
         "MODEL.ROI_HEADS.BATCH_SIZE_PER_IMAGE", "MODEL.ROI_HEADS.NUM_CLASSES"] ∧
      trainFieldAssignments.length = 10 ∧
      setFieldsOf mid = inferenceFieldAssignments ∧
      inferenceFieldAssignments =
        ["MODEL.WEIGHTS", "MODEL.ROI_HEADS.SCORE_THRESH_TEST"] ∧
      setFieldsOf rest = [] := by
  refine ⟨cellRegister, trainFieldAssignments.map Event.setField,
    inferenceFieldAssignments.map Event.setField, cellLoop dataset,
    ?_, rfl, rfl, rfl, rfl, rfl, rfl, ?_⟩
  · simp [notebookEvents, cellRegister, cellConfig, cellTrain, cellInference,
      List.append_assoc]
  · exact setFieldsOf_cellLoop dataset

/-- Witness for C7 on a one-image dataset. -/
theorem config_assignment_fields_witness :
    ∃ p1 p2 mid rest,
      notebookEvents ["000001"] =
        p1 ++ Event.loadConfig ::
          (p2 ++ Event.train :: (mid ++ Event.loadTrainedWeights :: rest)) ∧
      setFieldsOf p1 = [] ∧
      setFieldsOf p2 = trainFieldAssignments ∧
      trainFieldAssignments =
        ["DATASETS.TRAIN", "DATASETS.TEST", "DATALOADER.NUM_WORKERS", "MODEL.WEIGHTS",
         "SOLVER.IMS_PER_BATCH", "SOLVER.BASE_LR", "SOLVER.MAX_ITER", "SOLVER.STEPS",
         "MODEL.ROI_HEADS.BATCH_SIZE_PER_IMAGE", "MODEL.ROI_HEADS.NUM_CLASSES"] ∧
      trainFieldAssignments.length = 10 ∧
      setFieldsOf mid = inferenceFieldAssignments ∧
      inferenceFieldAssignments =
        ["MODEL.WEIGHTS", "MODEL.ROI_HEADS.SCORE_THRESH_TEST"] ∧
      setFieldsOf rest = [] :=
  config_assignment_fields ["000001"]

end Detectron
